import Mathlib

/-
Shallow embedding of the Busy-Light service (calendar_busy_light.py, with the
busy-event filter of calendar_monitor.py), together with theorems settling the
specification claims about it.

Conventions of the embedding:
- time instants and durations are rationals (seconds);
- the nondeterministic environment (operation failures, random jitter) is
  passed in as explicit oracles indexed by call number;
- raised Python exceptions become explicit error results.
-/

namespace BusyLight

/-! ### NetworkUtils.retry_with_exponential_backoff (calendar_busy_light.py lines 66-79)

The Python loop runs `attempt` over `range(max_retries)`; each iteration calls
`func()`.  On success the value is returned.  On failure at the last attempt
(`attempt == max_retries - 1`) the caught exception is re-raised as is; on an
earlier failure it sleeps `min(initial_delay * 2**attempt + random.uniform(0,1),
max_delay)` and retries.  The trailing `raise Exception(...)` is reached only
when the loop body never runs (`max_retries == 0`).

`op i` is the outcome of the i-th invocation of `func`; `jitter i` is the value
drawn by `random.uniform(0, 1)` before the i-th sleep.  The embedding returns
the outcome, the list of sleep durations, and the number of invocations made. -/

/-- Outcome of the retry loop: a returned value, a re-raised underlying
exception, or the generic "All N retry attempts failed" exception. -/
inductive RetryResult (ε α : Type) where
  | ok (a : α)
  | raised (e : ε)
  | exhausted
  deriving DecidableEq

/-- The retry loop from iteration `attempt`, with `r` iterations of
`range(max_retries)` remaining (invariant at call sites:
`attempt + r = max_retries`). -/
def retryFrom (op : Nat → Except ε α) (jitter : Nat → ℚ) (initial_delay max_delay : ℚ)
    (max_retries : Nat) : Nat → Nat → RetryResult ε α × List ℚ × Nat
  | _, 0 => (.exhausted, [], 0)
  | attempt, r + 1 =>
    match op attempt with
    | .ok a => (.ok a, [], 1)
    | .error e =>
      if attempt = max_retries - 1 then (.raised e, [], 1)
      else
        let delay := min (initial_delay * 2 ^ attempt + jitter attempt) max_delay
        let rest := retryFrom op jitter initial_delay max_delay max_retries (attempt + 1) r
        (rest.1, delay :: rest.2.1, rest.2.2 + 1)

/-- `NetworkUtils.retry_with_exponential_backoff(func, max_retries, initial_delay,
max_delay)`: result, sleeps performed, and number of invocations of `func`. -/
def retry_with_exponential_backoff (op : Nat → Except ε α) (jitter : Nat → ℚ)
    (max_retries : Nat) (initial_delay max_delay : ℚ) : RetryResult ε α × List ℚ × Nat :=
  retryFrom op jitter initial_delay max_delay max_retries 0 max_retries

/-- The expected i-th backoff sleep duration. -/
def backoffDelay (jitter : Nat → ℚ) (initial_delay max_delay : ℚ) (i : Nat) : ℚ :=
  min (initial_delay * 2 ^ i + jitter i) max_delay

lemma range_succ_map_shift (f : Nat → ℚ) (attempt k : Nat) :
    (List.range (k + 1)).map (fun i => f (attempt + i))
      = f attempt :: (List.range k).map (fun i => f (attempt + 1 + i)) := by
  rw [List.range_succ_eq_map, List.map_cons, List.map_map]
  refine congrArg₂ _ (by simp) (List.map_congr_left ?_)
  intro i _
  simp only [Function.comp]
  exact congrArg f (by omega)

lemma retryFrom_succ_retry {op : Nat → Except ε α} {jitter : Nat → ℚ} {initD maxD : ℚ}
    {maxR attempt r : Nat} {e : ε} (h : op attempt = Except.error e)
    (hne : attempt ≠ maxR - 1) :
    retryFrom op jitter initD maxD maxR attempt (r + 1)
      = ((retryFrom op jitter initD maxD maxR (attempt + 1) r).1,
         backoffDelay jitter initD maxD attempt
           :: (retryFrom op jitter initD maxD maxR (attempt + 1) r).2.1,
         (retryFrom op jitter initD maxD maxR (attempt + 1) r).2.2 + 1) := by
  simp [retryFrom, h, hne, backoffDelay]

lemma retryFrom_ok (op : Nat → Except ε α) (jitter : Nat → ℚ) (initD maxD : ℚ)
    (maxR : Nat) (a : α) :
    ∀ (k attempt r : Nat), attempt + r = maxR → k < r →
      (∀ i, i < k → ∃ e, op (attempt + i) = Except.error e) →
      op (attempt + k) = Except.ok a →
      retryFrom op jitter initD maxD maxR attempt r
        = (RetryResult.ok a,
           (List.range k).map (fun i => backoffDelay jitter initD maxD (attempt + i)),
           k + 1) := by
  intro k
  induction k with
  | zero =>
    intro attempt r hsum hk hfail hsucc
    obtain ⟨s, rfl⟩ : ∃ s, r = s + 1 := ⟨r - 1, by omega⟩
    have h0 : op attempt = Except.ok a := by simpa using hsucc
    simp [retryFrom, h0]
  | succ k ih =>
    intro attempt r hsum hk hfail hsucc
    obtain ⟨s, rfl⟩ : ∃ s, r = s + 1 := ⟨r - 1, by omega⟩
    obtain ⟨e, he⟩ := hfail 0 (Nat.succ_pos k)
    have he' : op attempt = Except.error e := by simpa using he
    have hne : attempt ≠ maxR - 1 := by omega
    have hrec := ih (attempt + 1) s (by omega) (by omega)
      (fun i hi => by
        obtain ⟨e', he''⟩ := hfail (i + 1) (by omega)
        exact ⟨e', by rw [show attempt + 1 + i = attempt + (i + 1) from by omega]; exact he''⟩)
      (by rw [show attempt + 1 + k = attempt + (k + 1) from by omega]; exact hsucc)
    simp only [retryFrom, he', if_neg hne, hrec]
    rw [range_succ_map_shift (backoffDelay jitter initD maxD) attempt k]
    rfl

lemma retryFrom_allFail (op : Nat → Except ε α) (jitter : Nat → ℚ) (initD maxD : ℚ)
    (maxR : Nat) (e : Nat → ε) (hfail : ∀ i, op i = Except.error (e i)) :
    ∀ (r attempt : Nat), attempt + r = maxR → 1 ≤ r →
      retryFrom op jitter initD maxD maxR attempt r
        = (RetryResult.raised (e (maxR - 1)),
           (List.range (r - 1)).map (fun i => backoffDelay jitter initD maxD (attempt + i)),
           r) := by
  intro r
  induction r with
  | zero => intro attempt _ h; omega
  | succ s ih =>
    intro attempt hsum _
    rcases Nat.eq_zero_or_pos s with hs | hs
    · subst hs
      have hlast : attempt = maxR - 1 := by omega
      subst hlast
      simp [retryFrom, hfail (maxR - 1)]
    · obtain ⟨t, rfl⟩ : ∃ t, s = t + 1 := ⟨s - 1, by omega⟩
      have hne : attempt ≠ maxR - 1 := by omega
      have hrec := ih (attempt + 1) (by omega) hs
      rw [retryFrom_succ_retry (hfail attempt) hne, hrec,
        show t + 1 - 1 = t from rfl, show t + 1 + 1 - 1 = t + 1 from rfl,
        range_succ_map_shift (backoffDelay jitter initD maxD) attempt t]

/-- C1: for every retry policy with maxAttempts ≥ 1 and every operation that
fails exactly `k` times with `k < maxAttempts` and then succeeds,
`retry_with_exponential_backoff` returns the operation's success value and
sleeps exactly `k` times, the i-th sleep (0-indexed) lasting
`min(initialDelay * 2 ^ i + j, maxDelay)` for some jitter `j` in `[0, 1)`. -/
theorem claim_C1_retry_success (op : Nat → Except ε α) (jitter : Nat → ℚ)
    (initD maxD : ℚ) (maxR k : Nat) (a : α)
    (hmax : 1 ≤ maxR) (hk : k < maxR)
    (hfail : ∀ i, i < k → ∃ e, op i = Except.error e)
    (hsucc : op k = Except.ok a)
    (hjit : ∀ i, 0 ≤ jitter i ∧ jitter i < 1) :
    retry_with_exponential_backoff op jitter maxR initD maxD
      = (RetryResult.ok a,
         (List.range k).map (fun i => min (initD * 2 ^ i + jitter i) maxD), k + 1)
    ∧ ∀ i, i < k → ∃ j, 0 ≤ j ∧ j < 1 ∧
        ((List.range k).map (fun i => min (initD * 2 ^ i + jitter i) maxD)).get? i
          = some (min (initD * 2 ^ i + j) maxD) := by
  constructor
  · have h := retryFrom_ok op jitter initD maxD maxR a k 0 maxR (by omega) hk
      (fun i hi => by simpa using hfail i hi) (by simpa using hsucc)
    rw [retry_with_exponential_backoff, h]
    simp [backoffDelay]
  · intro i hi
    refine ⟨jitter i, (hjit i).1, (hjit i).2, ?_⟩
    rw [List.get?_map, List.get?_range hi]
    rfl

theorem claim_C1_retry_success_witness :
    retry_with_exponential_backoff
        (fun i => if i = 0 then Except.error 0 else Except.ok 42) (fun _ => 0) 3 1 60
      = (RetryResult.ok 42,
         (List.range 1).map (fun i => min ((1:ℚ) * 2 ^ i + 0) 60), 1 + 1) :=
  (claim_C1_retry_success (fun i => if i = 0 then Except.error 0 else Except.ok 42)
    (fun _ => 0) 1 60 3 1 42 (by omega) (by omega)
    (fun i hi => ⟨0, by interval_cases i; rfl⟩) rfl (fun i => by norm_num)).1

/-- C2 (amended): for every operation that fails on every invocation and
maxAttempts ≥ 1, `retry_with_exponential_backoff` invokes the operation exactly
maxAttempts times, sleeps between consecutive attempts, and then re-raises the
last attempt's raw failure itself, not a RetryExhausted wrapper. -/
theorem claim_C2_retry_exhaustion (op : Nat → Except ε α) (jitter : Nat → ℚ)
    (initD maxD : ℚ) (maxR : Nat) (e : Nat → ε)
    (hmax : 1 ≤ maxR) (hfail : ∀ i, op i = Except.error (e i)) :
    retry_with_exponential_backoff op jitter maxR initD maxD
      = (RetryResult.raised (e (maxR - 1)),
         (List.range (maxR - 1)).map (fun i => min (initD * 2 ^ i + jitter i) maxD),
         maxR) := by
  have h := retryFrom_allFail op jitter initD maxD maxR e hfail maxR 0 (by omega) hmax
  rw [retry_with_exponential_backoff, h]
  simp [backoffDelay]

theorem claim_C2_retry_exhaustion_witness :
    retry_with_exponential_backoff (fun i => (Except.error i : Except Nat Nat))
        (fun _ => 0) 5 1 60
      = (RetryResult.raised 4,
         (List.range 4).map (fun i => min ((1:ℚ) * 2 ^ i + 0) 60), 5) :=
  claim_C2_retry_exhaustion (fun i => (Except.error i : Except Nat Nat))
    (fun _ => 0) 1 60 5 (fun i => i) (by omega) (fun _ => rfl)

/-- C2 counterexample: with default policy maxAttempts = 5 and an operation
that always fails (the i-th invocation raising the exception `i`), the result
is the re-raised raw underlying failure of the last attempt, not the generic
exhaustion exception the claim requires. -/
theorem claim_C2_counterexample :
    (retry_with_exponential_backoff (fun i => (Except.error i : Except Nat Nat))
        (fun _ => 0) 5 1 60).1 = RetryResult.raised 4
    ∧ (retry_with_exponential_backoff (fun i => (Except.error i : Except Nat Nat))
        (fun _ => 0) 5 1 60).1 ≠ RetryResult.exhausted := by
  constructor
  · rfl
  · intro h
    simp [retry_with_exponential_backoff, retryFrom] at h

/-! ### Connection-health staleness

`TuyaController.ensure_connection` (lines 156-164) forces a reconnect when
`not self.connection_verified or not self.last_successful_connection or
time.time() - self.last_successful_connection > 300`.
`GoogleCalendarMonitor.ensure_authenticated` (lines 337-345) forces a re-auth
when `not self.service or not self.last_successful_auth or
time.time() - self.last_successful_auth > 1800`.  In both, "marking verified"
stores the current wall-clock time in the last-success field. -/

/-- The forced-reconnect condition of `TuyaController.ensure_connection`. -/
def tuya_forces_reconnect (connection_verified : Bool)
    (last_successful_connection : Option ℚ) (now : ℚ) : Bool :=
  !connection_verified
    || (match last_successful_connection with
        | none => true
        | some t => decide (now - t > 300))

/-- The forced re-authentication condition of
`GoogleCalendarMonitor.ensure_authenticated`. -/
def calendar_forces_reauth (service_present : Bool)
    (last_successful_auth : Option ℚ) (now : ℚ) : Bool :=
  !service_present
    || (match last_successful_auth with
        | none => true
        | some t => decide (now - t > 1800))

/-- C6 (amended): for both ports, health is fresh (no reconnect forced)
immediately after being marked verified at time `t`, stays fresh while the
elapsed time since `t` is at most the threshold (including exactly at the
threshold), and becomes stale (forcing reconnect before use) exactly when the
elapsed time strictly exceeds the threshold; the device threshold is 300 s
(5 minutes) and the calendar-auth threshold is 1800 s (30 minutes). -/
theorem claim_C6_staleness (t now : ℚ) :
    tuya_forces_reconnect true (some t) t = false
    ∧ (tuya_forces_reconnect true (some t) now = true ↔ now - t > 300)
    ∧ calendar_forces_reauth true (some t) t = false
    ∧ (calendar_forces_reauth true (some t) now = true ↔ now - t > 1800) := by
  refine ⟨?_, ?_, ?_, ?_⟩ <;>
    simp [tuya_forces_reconnect, calendar_forces_reauth, sub_self]

/-- C6 counterexample: at elapsed time exactly equal to the threshold
(device: 300 s after verification; calendar: 1800 s after authentication) the
claim says the connection is already stale, but the code does not force a
reconnect (its comparison is strict). -/
theorem claim_C6_counterexample :
    tuya_forces_reconnect true (some 0) 300 = false
    ∧ ((300 : ℚ) - 0 ≥ 300)
    ∧ calendar_forces_reauth true (some 0) 1800 = false
    ∧ ((1800 : ℚ) - 0 ≥ 1800) := by
  refine ⟨?_, by norm_num, ?_, by norm_num⟩ <;>
    simp [tuya_forces_reconnect, calendar_forces_reauth]

/-! ### GoogleCalendarMonitor busy queries (calendar_busy_light.py lines 395-483)

An event here is the fetched JSON payload restricted to the fields the program
reads: `summary`, `transparency` (both possibly absent), the parsed start/end
instants, and the user's own attendance response (present in the payloads,
read only by the standalone calendar_monitor.py script, never by these two
queries).  The calendar port returns, already ordered by start time, the
events overlapping the queried window, so the returned list itself is the
query-window content. -/

structure CalEvent where
  summary : Option String
  transparency : Option String
  start : ℚ
  endTime : ℚ
  selfResponseStatus : Option String
  deriving DecidableEq

/-- `event.get('transparency', 'opaque') == 'opaque'`: the busy marker check
(lines 420-421 and 471-472). -/
def isOpaque (e : CalEvent) : Bool := e.transparency.getD "opaque" == "opaque"

/-- `GoogleCalendarMonitor.is_busy_soon`: on authentication failure returns
`(False, "Authentication failed")`; otherwise returns `(True, summary)` for the
first opaque event of the window, else `(False, None)`. -/
def is_busy_soon (authOk : Bool) (events : List CalEvent) : Bool × Option String :=
  if !authOk then (false, some "Authentication failed")
  else
    match events.find? isOpaque with
    | some e => (true, some (e.summary.getD "Busy"))
    | none => (false, none)

/-- `start_dt <= now_dt <= end_dt` (line 470). -/
def coversNow (now : ℚ) (e : CalEvent) : Bool :=
  decide (e.start ≤ now) && decide (now ≤ e.endTime)

/-- `GoogleCalendarMonitor.is_currently_busy`: on authentication failure
returns `(False, "Authentication failed")`; otherwise returns `(True, summary)`
for the first opaque event whose span covers `now`, else `(False, None)`. -/
def is_currently_busy (authOk : Bool) (now : ℚ) (events : List CalEvent) :
    Bool × Option String :=
  if !authOk then (false, some "Authentication failed")
  else
    match events.find? (fun e => coversNow now e && isOpaque e) with
    | some e => (true, some (e.summary.getD "Busy"))
    | none => (false, none)

/-- C5: an event counts as busy iff its transparency marker is "opaque" (the
default when absent): `is_busy_soon` reports busy iff the window holds an
opaque event; a list of non-opaque events never makes `is_busy_soon` or
`is_currently_busy` report busy, whatever the events' time spans; and the first
opaque event of the window makes `is_busy_soon` return true with that event's
title — the events' other attributes, such as `selfResponseStatus` (attendance),
are universally quantified here and thus irrelevant. -/
theorem claim_C5_busy_classification (events : List CalEvent) (now : ℚ) :
    ((is_busy_soon true events).1 = true ↔ ∃ e ∈ events, isOpaque e = true)
    ∧ ((∀ e ∈ events, isOpaque e = false) →
        is_busy_soon true events = (false, none)
        ∧ is_currently_busy true now events = (false, none))
    ∧ (∀ e, events.find? isOpaque = some e →
        is_busy_soon true events = (true, some (e.summary.getD "Busy"))) := by
  refine ⟨?_, ?_, ?_⟩
  · constructor
    · intro hb
      cases h : events.find? isOpaque with
      | none => rw [is_busy_soon] at hb; simp [h] at hb
      | some e => exact ⟨e, List.mem_of_find?_eq_some h, List.find?_some h⟩
    · rintro ⟨e, he, hop⟩
      obtain ⟨e', he'⟩ := Option.isSome_iff_exists.mp (List.find?_isSome.mpr ⟨e, he, hop⟩)
      simp [is_busy_soon, he']
  · intro h
    have h1 : events.find? isOpaque = none :=
      List.find?_eq_none.mpr (fun e he => by simp [h e he])
    have h2 : events.find? (fun e => coversNow now e && isOpaque e) = none :=
      List.find?_eq_none.mpr (fun e he => by simp [h e he])
    constructor <;> simp [is_busy_soon, is_currently_busy, h1, h2]
  · intro e h
    simp [is_busy_soon, h]

theorem claim_C5_busy_classification_witness :
    is_busy_soon true
        [⟨some "Standup", none, 0, 10, some "declined"⟩]
      = (true, some "Standup") :=
  (claim_C5_busy_classification
      [⟨some "Standup", none, 0, 10, some "declined"⟩] 0).2.2
    ⟨some "Standup", none, 0, 10, some "declined"⟩ rfl

/-- C7 (amended): whenever authentication fails, `is_busy_soon` and
`is_currently_busy` return a false busy flag, but the second component is the
string "Authentication failed", not an empty optional. -/
theorem claim_C7_auth_failure (events : List CalEvent) (now : ℚ) :
    is_busy_soon false events = (false, some "Authentication failed")
    ∧ is_currently_busy false now events = (false, some "Authentication failed") :=
  ⟨rfl, rfl⟩

/-- C7 counterexample: on authentication failure the optional summary slot
carries the value "Authentication failed", contradicting the claimed
`(false, none)` result pair. -/
theorem claim_C7_counterexample :
    (is_busy_soon false ([] : List CalEvent)).2 = some "Authentication failed"
    ∧ (is_busy_soon false ([] : List CalEvent)).2 ≠ (none : Option String)
    ∧ (is_currently_busy false 0 ([] : List CalEvent)).2 ≠ (none : Option String) := by
  refine ⟨rfl, ?_, ?_⟩ <;> simp [is_busy_soon, is_currently_busy]

/-! ### TuyaController.flash (calendar_busy_light.py lines 228-255)

`flash` returns False at once when neither the cloud handle nor the local
device handle exists.  Otherwise it remembers `original_state := last_state`,
loops `times` times issuing `set_state(True)` then `set_state(False)`
(returning False as soon as one of them returns False), and finally — only
when `original_state is not None` — issues `set_state(original_state)`,
ignoring its result, and returns True.

`ok i` is the boolean outcome of the i-th `set_state` call issued by this
`flash` invocation; a successful `set_state(b)` records `b` in `last_state`.
The embedding returns the boolean result, the arguments of the `set_state`
calls issued, and the final controller state. -/

structure TuyaState where
  cloud : Bool
  device : Bool
  last_state : Option Bool
  deriving DecidableEq

/-- The on/off loop of `flash`: remaining iterations, next call index,
accumulated call list, current state.  Returns (loop succeeded, calls, next
call index, state). -/
def flashGo (ok : Nat → Bool) : Nat → Nat → List Bool → TuyaState →
    Bool × List Bool × Nat × TuyaState
  | 0, idx, acc, st => (true, acc, idx, st)
  | n + 1, idx, acc, st =>
    if ok idx then
      let st1 : TuyaState := { st with last_state := some true }
      if ok (idx + 1) then
        flashGo ok n (idx + 2) (acc ++ [true, false]) { st1 with last_state := some false }
      else (false, acc ++ [true, false], idx + 2, st1)
    else (false, acc ++ [true], idx + 1, st)

/-- `TuyaController.flash(times)`. -/
def flash (st : TuyaState) (ok : Nat → Bool) (times : Nat) :
    Bool × List Bool × TuyaState :=
  if !(st.cloud || st.device) then (false, [], st)
  else
    let original_state := st.last_state
    match flashGo ok times 0 [] st with
    | (false, calls, _, st1) => (false, calls, st1)
    | (true, calls, idx, st1) =>
      match original_state with
      | none => (true, calls, st1)
      | some s =>
        (true, calls ++ [s], if ok idx then { st1 with last_state := some s } else st1)

lemma flashGo_succ_ok_ok {ok : Nat → Bool} {n idx : Nat} {acc : List Bool}
    {st : TuyaState} (h1 : ok idx = true) (h2 : ok (idx + 1) = true) :
    flashGo ok (n + 1) idx acc st
      = flashGo ok n (idx + 2) (acc ++ [true, false])
          { st with last_state := some false } := by
  simp [flashGo, h1, h2]

lemma flashGo_succ_fail1 {ok : Nat → Bool} {n idx : Nat} {acc : List Bool}
    {st : TuyaState} (h1 : ok idx = false) :
    flashGo ok (n + 1) idx acc st = (false, acc ++ [true], idx + 1, st) := by
  simp [flashGo, h1]

lemma flashGo_succ_fail2 {ok : Nat → Bool} {n idx : Nat} {acc : List Bool}
    {st : TuyaState} (h1 : ok idx = true) (h2 : ok (idx + 1) = false) :
    flashGo ok (n + 1) idx acc st
      = (false, acc ++ [true, false], idx + 2, { st with last_state := some true }) := by
  simp [flashGo, h1, h2]

/-- C4 (amended): with a device handle present, `flash(times=3)` whose six
toggle `setState` calls all succeed issues exactly those 6 calls (alternating
on/off) and then one additional restoring call whenever the pre-flash tracked
state is known (not None) — even when that state equals the final off toggle —
and returns true; if one of the six toggle calls fails, `flash` returns false
having issued only the calls up to and including the failing one, without the
restoring call. -/
theorem claim_C4_flash (st : TuyaState) (ok : Nat → Bool) :
    ((st.cloud || st.device) = true → (∀ i, i < 6 → ok i = true) →
      (flash st ok 3).1 = true
      ∧ (flash st ok 3).2.1
          = [true, false, true, false, true, false] ++ st.last_state.toList)
    ∧ (∀ j, (st.cloud || st.device) = true → j < 6 →
        (∀ i, i < j → ok i = true) → ok j = false →
        (flash st ok 3).1 = false
        ∧ (flash st ok 3).2.1
            = (List.range (j + 1)).map (fun i => decide (i % 2 = 0))) := by
  constructor
  · intro hh h6
    have h0 := h6 0 (by norm_num); have h1 := h6 1 (by norm_num)
    have h2 := h6 2 (by norm_num); have h3 := h6 3 (by norm_num)
    have h4 := h6 4 (by norm_num); have h5 := h6 5 (by norm_num)
    have hgo : flashGo ok 3 0 [] st
        = (true, [true, false, true, false, true, false], 6,
           { st with last_state := some false }) := by
      rw [flashGo_succ_ok_ok h0 h1, flashGo_succ_ok_ok h2 h3, flashGo_succ_ok_ok h4 h5]
      rfl
    cases hls : st.last_state <;> simp [flash, hh, hgo, hls]
  · intro j hh hj hlt hfail
    interval_cases j
    · have hgo : flashGo ok 3 0 [] st = (false, [true], 1, st) := by
        rw [flashGo_succ_fail1 hfail]; rfl
      refine ⟨by simp [flash, hh, hgo], by simp [flash, hh, hgo]; rfl⟩
    · have h0 := hlt 0 (by norm_num)
      have hgo : flashGo ok 3 0 [] st
          = (false, [true, false], 2, { st with last_state := some true }) := by
        rw [flashGo_succ_fail2 h0 hfail]; rfl
      refine ⟨by simp [flash, hh, hgo], by simp [flash, hh, hgo]; rfl⟩
    · have h0 := hlt 0 (by norm_num); have h1 := hlt 1 (by norm_num)
      have hgo : flashGo ok 3 0 [] st
          = (false, [true, false, true], 3, { st with last_state := some false }) := by
        rw [flashGo_succ_ok_ok h0 h1, flashGo_succ_fail1 hfail]; rfl
      refine ⟨by simp [flash, hh, hgo], by simp [flash, hh, hgo]; rfl⟩
    · have h0 := hlt 0 (by norm_num); have h1 := hlt 1 (by norm_num)
      have h2 := hlt 2 (by norm_num)
      have hgo : flashGo ok 3 0 [] st
          = (false, [true, false, true, false], 4, { st with last_state := some true }) := by
        rw [flashGo_succ_ok_ok h0 h1, flashGo_succ_fail2 h2 hfail]; rfl
      refine ⟨by simp [flash, hh, hgo], by simp [flash, hh, hgo]; rfl⟩
    · have h0 := hlt 0 (by norm_num); have h1 := hlt 1 (by norm_num)
      have h2 := hlt 2 (by norm_num); have h3 := hlt 3 (by norm_num)
      have hgo : flashGo ok 3 0 [] st
          = (false, [true, false, true, false, true], 5,
             { st with last_state := some false }) := by
        rw [flashGo_succ_ok_ok h0 h1, flashGo_succ_ok_ok h2 h3,
          flashGo_succ_fail1 hfail]
        rfl
      refine ⟨by simp [flash, hh, hgo], by simp [flash, hh, hgo]; rfl⟩
    · have h0 := hlt 0 (by norm_num); have h1 := hlt 1 (by norm_num)
      have h2 := hlt 2 (by norm_num); have h3 := hlt 3 (by norm_num)
      have h4 := hlt 4 (by norm_num)
      have hgo : flashGo ok 3 0 [] st
          = (false, [true, false, true, false, true, false], 6,
             { st with last_state := some true }) := by
        rw [flashGo_succ_ok_ok h0 h1, flashGo_succ_ok_ok h2 h3,
          flashGo_succ_fail2 h4 hfail]
        rfl
      refine ⟨by simp [flash, hh, hgo], by simp [flash, hh, hgo]; rfl⟩

theorem claim_C4_flash_witness :
    ((flash ⟨true, false, some true⟩ (fun _ => true) 3).1 = true
      ∧ (flash ⟨true, false, some true⟩ (fun _ => true) 3).2.1
          = [true, false, true, false, true, false]
              ++ (some true : Option Bool).toList)
    ∧ ((flash ⟨true, false, some true⟩ (fun i => decide (i ≠ 2)) 3).1 = false
      ∧ (flash ⟨true, false, some true⟩ (fun i => decide (i ≠ 2)) 3).2.1
          = (List.range 3).map (fun i => decide (i % 2 = 0))) :=
  ⟨(claim_C4_flash ⟨true, false, some true⟩ (fun _ => true)).1 rfl (fun i _ => rfl),
   (claim_C4_flash ⟨true, false, some true⟩ (fun i => decide (i ≠ 2))).2 2 rfl
     (by norm_num) (fun i hi => by interval_cases i <;> rfl) rfl⟩

/-- C4 counterexample: pre-flash tracked state off (`last_state = False`),
equal to the final toggle; all calls succeed.  The claim allows only the 6
toggle calls here, but the code still issues the restoring `set_state(False)`,
for 7 calls in total. -/
theorem claim_C4_counterexample :
    (flash ⟨true, false, some false⟩ (fun _ => true) 3).2.1
      = [true, false, true, false, true, false, false]
    ∧ (flash ⟨true, false, some false⟩ (fun _ => true) 3).2.1.length ≠ 6 := by
  refine ⟨rfl, by decide⟩

/-- C10: calling `flash` before any handle has been created returns false
immediately, issues no `set_state` call, and leaves the whole controller state
(including the tracked `last_state`) unchanged. -/
theorem claim_C10_flash_no_handle (st : TuyaState) (ok : Nat → Bool) (times : Nat)
    (hc : st.cloud = false) (hd : st.device = false) :
    flash st ok times = (false, [], st) := by
  simp [flash, hc, hd]

theorem claim_C10_flash_no_handle_witness :
    flash ⟨false, false, some true⟩ (fun _ => true) 3
      = (false, [], ⟨false, false, some true⟩) :=
  claim_C10_flash_no_handle ⟨false, false, some true⟩ (fun _ => true) 3 rfl rfl

/-! ### The orchestrator: BusyLightService.run (calendar_busy_light.py lines 668-767)

The embedding records, per control path, the externally visible actions in
program order.  A RUNNING tick's decision section (lines 717-752) reads the
two busy queries, computes `should_be_on` as their OR and the event name as
the Python `or` of the two optional names, issues `set_state(should_be_on)`
only when `should_be_on != self.is_busy` (updating `self.is_busy` first), then
updates the two `previous_*` tracking variables, and finally calls
`stop_error_flash()`. -/

inductive Action where
  | setState (b : Bool)
  | stopErrorFlash
  | startErrorFlash
  | connectDevice
  | authCalendar
  | startupFlash
  | startHeartbeat
  | enterRunning
  deriving DecidableEq

/-- Python `x or y` on two optional strings (line 721): the first operand wins
unless it is None or the empty string. -/
def pyOr (a b : Option String) : Option String :=
  match a with
  | some s => if s = "" then b else some s
  | none => b

structure LoopState where
  is_busy : Bool
  previous_busy_state : Bool
  previous_event_name : Option String
  deriving DecidableEq

/-- One RUNNING-tick decision section: new tracking state and emitted actions. -/
def runTick (st : LoopState) (busy_soon : Bool) (event_soon : Option String)
    (currently_busy : Bool) (current_event : Option String) :
    LoopState × List Action :=
  let should_be_on := busy_soon || currently_busy
  let current_event_name := pyOr event_soon current_event
  let writes :=
    if should_be_on != st.is_busy then [Action.setState should_be_on] else []
  let is_busy1 := if should_be_on != st.is_busy then should_be_on else st.is_busy
  (⟨is_busy1, should_be_on, current_event_name⟩, writes ++ [Action.stopErrorFlash])

/-- The `set_state` arguments among a tick's emitted actions. -/
def writesOf (tr : List Action) : List Bool :=
  tr.filterMap (fun a => match a with | .setState b => some b | _ => none)

/-- C3: over two consecutive ticks whose computed desired boolean state is the
same value `d`, the device write is issued exactly once — in the first tick —
when `d` differs from the tracked state, and never when it equals it; the
second tick issues no write, whatever the event names are across the two
ticks. -/
theorem claim_C3_idempotence (st : LoopState) (b1 c1 b2 c2 : Bool)
    (e1 n1 e2 n2 : Option String) (hd : (b1 || c1) = (b2 || c2)) :
    writesOf (runTick st b1 e1 c1 n1).2
        = (if (b1 || c1) = st.is_busy then [] else [b1 || c1])
    ∧ writesOf (runTick (runTick st b1 e1 c1 n1).1 b2 e2 c2 n2).2 = [] := by
  obtain ⟨ib, pb, pe⟩ := st
  cases b1 <;> cases c1 <;> cases b2 <;> cases c2 <;> cases ib <;>
    simp_all [runTick, writesOf]

theorem claim_C3_idempotence_witness :
    writesOf (runTick ⟨false, false, none⟩ true (some "Standup") false none).2
        = (if (true || false) = false then [] else [true || false])
    ∧ writesOf (runTick (runTick ⟨false, false, none⟩ true (some "Standup")
          false none).1 true (some "Standup") false none).2 = [] :=
  claim_C3_idempotence ⟨false, false, none⟩ true false true false
    (some "Standup") none (some "Standup") none rfl

/-- C8 (amended): in every RUNNING tick that needs a device state change, the
main loop issues its `setState` call first and stops any active error-flash
task only afterwards, at the end of the tick — the tick's action sequence is
`[setState desired, stopErrorFlash]` — so the stop does not precede the write
and a flashError toggle may still be running while the main-loop `setState`
call is issued. -/
theorem claim_C8_write_then_stop (st : LoopState) (b c : Bool)
    (e n : Option String) (h : (b || c) ≠ st.is_busy) :
    (runTick st b e c n).2 = [Action.setState (b || c), Action.stopErrorFlash] := by
  obtain ⟨ib, pb, pe⟩ := st
  cases b <;> cases c <;> cases ib <;> simp_all [runTick]

theorem claim_C8_write_then_stop_witness :
    (runTick ⟨false, false, none⟩ true (some "Meeting") false none).2
      = [Action.setState (true || false), Action.stopErrorFlash] :=
  claim_C8_write_then_stop ⟨false, false, none⟩ true false (some "Meeting") none
    (by decide)

/-- C8 counterexample: first tick after an outage that needs the light turned
on.  The main loop emits `setState true` first and `stop_error_flash()` only
afterwards (line 742 before line 752), so the error-flash task is not stopped
before the write, contradicting the claimed ordering. -/
theorem claim_C8_counterexample :
    (runTick ⟨false, false, none⟩ false none true (some "Meeting")).2
      = [Action.setState true, Action.stopErrorFlash]
    ∧ (runTick ⟨false, false, none⟩ false none true (some "Meeting")).2.indexOf
          (Action.setState true)
        < (runTick ⟨false, false, none⟩ false none true
            (some "Meeting")).2.indexOf Action.stopErrorFlash := by
  refine ⟨rfl, by decide⟩

/-- `BusyLightService.startup_sequence` (lines 530-577): connect, then
authenticate (each aborting with False on failure), then startup flash and the
immediate decision-and-set cycle, returning True. -/
def startup_sequence (connectOk authOk initial_should_be_on : Bool) :
    Bool × List Action :=
  if !connectOk then (false, [Action.connectDevice])
  else if !authOk then (false, [Action.connectDevice, Action.authCalendar])
  else (true, [Action.connectDevice, Action.authCalendar, Action.startupFlash,
               Action.setState initial_should_be_on])

/-- `BusyLightService.run` up to entry of the monitoring loop (lines 668-693):
on startup failure, start the error flash and return; on success, start the
heartbeat monitor and enter the RUNNING loop. -/
def run (connectOk authOk initial_should_be_on : Bool) : List Action :=
  match startup_sequence connectOk authOk initial_should_be_on with
  | (false, tr) => tr ++ [Action.startErrorFlash]
  | (true, tr) => tr ++ [Action.startHeartbeat, Action.enterRunning]

/-- C9: if device connection or calendar authentication fails during startup,
`run` starts the error-flash task and terminates without entering RUNNING —
the heartbeat never starts and nothing after the error flash is attempted —
and this is the only path that prevents the loop from reaching RUNNING:
RUNNING is entered exactly when both startup steps succeed. -/
theorem claim_C9_startup_failure (c a s : Bool) :
    (Action.enterRunning ∈ run c a s ↔ (c && a) = true)
    ∧ ((c && a) = false →
        Action.startErrorFlash ∈ run c a s
        ∧ Action.startHeartbeat ∉ run c a s
        ∧ Action.enterRunning ∉ run c a s) := by
  cases c <;> cases a <;> simp [run, startup_sequence]

theorem claim_C9_startup_failure_witness :
    Action.startErrorFlash ∈ run false true false
    ∧ Action.startHeartbeat ∉ run false true false
    ∧ Action.enterRunning ∉ run false true false :=
  (claim_C9_startup_failure false true false).2 rfl

end BusyLight
